import Mathlib

/-!
Verification of `src/train/sex_det/sd01a.py` (kaggle-lung-cancer), a script
that trains a 3D residual network for binary sex determination on volumes.
The script's components are shallowly embedded below: directory walking
(`get_data_files`), dataset assembly and shuffling
(`create_data_generators`), the residual block and model graph
(`res_block`, `define_model`), the training driver (`train`), and the
entry-point prelude.  Theorems about these embeddings follow the
definitions.
-/

namespace SD01A

/-! ### Filesystem model and `get_data_files` (lines 14-19) -/

/-- A directory entry as `os.scandir` sees it: a regular file with a name, or
a subdirectory with a name and its own entries. -/
inductive DirEntry where
  | file (name : String)
  | dir (name : String) (entries : List DirEntry)
deriving Repr

/-- `os.path.join(root, name)` for the non-absolute names produced here. -/
def joinPath (root name : String) : String := root ++ "/" ++ name

/-- Embedding of `get_data_files(root)` (lines 14-19): scan the entries of
`root` in order; yield a regular file's path when it ends in `.npy`, recurse
into a subdirectory. -/
def get_data_files : String → List DirEntry → List String
  | _, [] => []
  | root, .file n :: es =>
      (if (joinPath root n).endsWith ".npy" then [joinPath root n] else [])
        ++ get_data_files root es
  | root, .dir n sub :: es =>
      get_data_files (joinPath root n) sub ++ get_data_files root es

/-- All regular-file paths in the tree rooted at `root` with entry list `es`,
in scan order, with no extension filter. -/
def files_under : String → List DirEntry → List String
  | _, [] => []
  | root, .file n :: es => joinPath root n :: files_under root es
  | root, .dir n sub :: es => files_under (joinPath root n) sub ++ files_under root es

/-! ### Dataset assembly (`create_data_generators`, lines 35-53) -/

/-- Lines 39-41 / 49-51: the rows of `X` are the volumes loaded from
`neg_files ++ pos_files` in that order.  `load` stands for `np.load`; the
volume type `V` is abstract. -/
def load_volumes {V : Type} (load : String → V) (fs : List String) : List V :=
  fs.map load

/-- Line 42 / 52: `y = np.hstack((np.zeros(len(neg)), np.ones(len(pos))))
.astype(np.bool)` — `len(neg)` zeros (False) followed by `len(pos)` ones
(True). -/
def y_labels (nneg npos : Nat) : List Bool :=
  List.replicate nneg false ++ List.replicate npos true

/-- Reindexing one array by the index list `perm`: element `i` of the result
is element `perm[i]` of the input (`d` is a default never reached when every
index of `perm` is in range). -/
def apply_perm {V : Type} (d : V) (perm : List Nat) (xs : List V) : List V :=
  perm.map (fun i => xs.getD i d)

/-- Lines 43 / 53: `sklearn.utils.shuffle(X, y)` draws one random
permutation of the indices and reindexes both arrays by it (sklearn's
documented consistent shuffle); the drawn permutation is the explicit
parameter `perm`. -/
def sklearn_shuffle {V : Type} (dX : V) (perm : List Nat) (X : List V)
    (y : List Bool) : List V × List Bool :=
  (apply_perm dX perm X, apply_perm false perm y)

/-! ### Keras layer graph (`res_block` lines 61-77, `define_model` lines
80-111) -/

/-- A symbolic Keras tensor: the DAG of layer applications the script
assembles.  Each constructor records the layer's configuration exactly as
the script passes it (filters, kernel size, subsample strides, border
mode, pool size, units, activation). -/
inductive Tensor where
  | input (shape : List Nat)
  | batch_norm (axis : Nat) (t : Tensor)
  | activation (name : String) (t : Tensor)
  | conv3d (nb_filters k1 k2 k3 : Nat) (subsample : Nat × Nat × Nat)
      (border_mode : String) (t : Tensor)
  | merge_sum (a b : Tensor)
  | avg_pool3d (pool_size : Nat × Nat × Nat) (t : Tensor)
  | flatten (t : Tensor)
  | dense (units : Nat) (act : String) (name : String) (t : Tensor)
deriving Repr, DecidableEq

/-- Embedding of `res_block` (lines 61-77): batch normalization (axis 4),
ReLU, strided 3x3x3 convolution, batch normalization, ReLU, unstrided
3x3x3 convolution; the shortcut is a strided 1x1x1 convolution of the
input when `subsample_factor > 1` and the input itself otherwise; the two
paths are merged by elementwise sum. -/
def res_block (input_tensor : Tensor) (nb_filters block subsample_factor : Nat) :
    Tensor :=
  let _ := block
  let subsample := (subsample_factor, subsample_factor, subsample_factor)
  let x := Tensor.batch_norm 4 input_tensor
  let x := Tensor.activation "relu" x
  let x := Tensor.conv3d nb_filters 3 3 3 subsample "same" x
  let x := Tensor.batch_norm 4 x
  let x := Tensor.activation "relu" x
  let x := Tensor.conv3d nb_filters 3 3 3 (1, 1, 1) "same" x
  let shortcut :=
    if subsample_factor > 1 then
      Tensor.conv3d nb_filters 1 1 1 subsample "same" input_tensor
    else input_tensor
  Tensor.merge_sum x shortcut

/-- The residual block as C3 words it: the transformed path is batch
normalization, ReLU, a strided 3x3x3 convolution, a second batch
normalization, a second ReLU and a second unstrided 3x3x3 convolution; the
shortcut is the identity when the subsample factor is 1 and a strided
1x1x1 projection convolution when it is greater than 1; the result is
their elementwise sum. -/
def res_block_spec (input_tensor : Tensor) (nb_filters subsample_factor : Nat) :
    Tensor :=
  Tensor.merge_sum
    (Tensor.conv3d nb_filters 3 3 3 (1, 1, 1) "same"
      (Tensor.activation "relu"
        (Tensor.batch_norm 4
          (Tensor.conv3d nb_filters 3 3 3
            (subsample_factor, subsample_factor, subsample_factor) "same"
            (Tensor.activation "relu" (Tensor.batch_norm 4 input_tensor))))))
    (if subsample_factor = 1 then input_tensor
     else
       Tensor.conv3d nb_filters 1 1 1
         (subsample_factor, subsample_factor, subsample_factor) "same"
         input_tensor)

/-- A compiled Keras model: the output tensor graph plus the `compile`
configuration of line 109. -/
structure CompiledModel where
  graph : Tensor
  optimizer : String
  loss : String
  metrics : List String
deriving Repr, DecidableEq

/-- Embedding of `define_model` (lines 80-111): initial 5x5x5 convolution,
twelve residual blocks, batch normalization, ReLU, average pooling,
flattening and a single-unit sigmoid dense layer, compiled with adam and
binary cross-entropy. -/
def define_model (image_shape : List Nat) : CompiledModel :=
  let img_input := Tensor.input image_shape
  let x := Tensor.conv3d 16 5 5 5 (1, 1, 1) "same" img_input
  let x := res_block x 16 0 1
  let x := res_block x 16 0 1
  let x := res_block x 16 0 1
  let x := res_block x 32 1 2
  let x := res_block x 32 1 1
  let x := res_block x 32 1 1
  let x := res_block x 64 2 2
  let x := res_block x 64 2 1
  let x := res_block x 64 2 1
  let x := res_block x 128 3 2
  let x := res_block x 128 3 1
  let x := res_block x 128 3 1
  let x := Tensor.batch_norm 4 x
  let x := Tensor.activation "relu" x
  let x := Tensor.avg_pool3d (4, 4, 8) x
  let x := Tensor.flatten x
  let x := Tensor.dense 1 "sigmoid" "predictions" x
  { graph := x, optimizer := "adam", loss := "binary_crossentropy",
    metrics := ["accuracy", "precision", "recall", "fmeasure"] }

/-- One stage of residual blocks sharing a width: fold `res_block` over the
stage's subsample factors. -/
def res_stage (x : Tensor) (nb_filters block : Nat) (subs : List Nat) : Tensor :=
  subs.foldl (fun t sf => res_block t nb_filters block sf) x

/-- The stage plan of `define_model`: for each stage its channel width, its
block index and the subsample factor of each of its residual blocks. -/
def stage_plan : List (Nat × Nat × List Nat) :=
  [(16, 0, [1, 1, 1]), (32, 1, [2, 1, 1]), (64, 2, [2, 1, 1]),
   (128, 3, [2, 1, 1])]

/-- Stack the stages of a plan onto a tensor. -/
def build_stages (x : Tensor) (plan : List (Nat × Nat × List Nat)) : Tensor :=
  plan.foldl (fun t p => res_stage t p.1 p.2.1 p.2.2) x

/-- The model graph as C4 words it: an initial convolution, a plan of
stages of residual blocks, then batch normalization, ReLU, average
pooling, flattening and a single sigmoid output unit. -/
def define_model_spec (image_shape : List Nat)
    (plan : List (Nat × Nat × List Nat)) : Tensor :=
  Tensor.dense 1 "sigmoid" "predictions"
    (Tensor.flatten
      (Tensor.avg_pool3d (4, 4, 8)
        (Tensor.activation "relu"
          (Tensor.batch_norm 4
            (build_stages
              (Tensor.conv3d 16 5 5 5 (1, 1, 1) "same"
                (Tensor.input image_shape))
              plan)))))

/-- The output layer's configuration: `some (units, activation)` when the
graph's outermost layer is dense. -/
def output_dense : Tensor → Option (Nat × String)
  | .dense u a _ _ => some (u, a)
  | _ => none

/-- The sigmoid activation of the output unit, as the real function
`x ↦ 1 / (1 + e^(-x))` that the framework's sigmoid computes. -/
noncomputable def sigmoid (x : ℝ) : ℝ := 1 / (1 + Real.exp (-x))

/-! ### Training driver (`train`, lines 114-124) -/

/-- A Keras callback as `train` configures it (lines 117-118).  A field
the source does not pass keeps the framework default: `ModelCheckpoint`
monitors the validation loss by default. -/
inductive Callback where
  | model_checkpoint (filepath : String) (monitor : String) (verbose : Nat)
      (save_best_only : Bool)
  | early_stopping (monitor : String) (patience : Nat) (verbose : Nat)
deriving Repr, DecidableEq

/-- The `fit_generator` call of lines 120-124: everything the training
driver passes to the framework's generator-based fit loop. -/
structure FitGeneratorCall where
  samples_per_epoch : Nat
  nb_epoch : Nat
  verbose : Nat
  callbacks : List Callback
  nb_val_samples : Nat
  max_q_size : Nat
  nb_worker : Nat
  pickle_safe : Bool
  initial_epoch : Nat
deriving Repr, DecidableEq

/-- Embedding of `train` (lines 114-124): unpack the config tuple, build
the two callbacks, and hand everything to `fit_generator`. -/
def train (weights_filepath : String) (config : Nat × Nat × Nat × Nat) :
    FitGeneratorCall :=
  let nb_epoch := config.2.1
  let samples_per_epoch := config.2.2.1
  let nb_val_samples := config.2.2.2
  let checkpointer := Callback.model_checkpoint weights_filepath "val_loss" 2 true
  let early_stopping := Callback.early_stopping "val_loss" 10 2
  { samples_per_epoch := samples_per_epoch
    nb_epoch := nb_epoch
    verbose := 2
    callbacks := [checkpointer, early_stopping]
    nb_val_samples := nb_val_samples
    max_q_size := 20
    nb_worker := 4
    pickle_safe := false
    initial_epoch := 0 }

/-! ### Entry point (lines 127-167) -/

/-- The names the module's global scope binds when the script starts: the
imports of lines 1-11 and the top-level function definitions.  `json` is
not among them — line 132 uses `json.load` but no line imports `json`. -/
def module_names : List String :=
  ["os", "argparse", "np", "sklearn_shuffle", "tf", "Model", "Flatten",
   "Dense", "Input", "merge", "Convolution3D", "MaxPooling3D",
   "BatchNormalization", "Activation", "AveragePooling3D",
   "ModelCheckpoint", "EarlyStopping", "ImageDataGenerator",
   "get_data_files", "create_data_generators", "res_block", "define_model",
   "train"]

/-- Python builtin names reachable without any import. -/
def python_builtins : List String :=
  ["open", "print", "len", "list", "enumerate", "zip", "format", "abs"]

/-- Python name resolution in the script's global scope: a name resolves
when the module or the builtins bind it, and raises `NameError`
otherwise. -/
def resolve_name (n : String) : Except String Unit :=
  if n ∈ module_names ∨ n ∈ python_builtins then Except.ok ()
  else Except.error ("NameError: name " ++ n ++ " is not defined")

/-- The settings-reading prelude of the entry point (lines 128-132):
`open(SETTINGS_FILE_PATH, ...)` then `SETTINGS = json.load(f)`.
Evaluating `json.load(f)` first resolves the global name `json`. -/
def read_settings_step : Except String Unit :=
  (resolve_name "open").bind (fun _ => resolve_name "json")

/-- `samples_per_epoch` and `nb_val_samples` of lines 146-147:
`batch_size * (n // batch_size)` where `n` counts the `.npy` files under
the split directory. -/
def samples_per_epoch_calc (batch_size n : Nat) : Nat :=
  batch_size * (n / batch_size)

/-! ### Augmenting data generator (`helper.preprocessing_3d`) -/

/-- A volume as a voxel grid: a value at every integer coordinate. -/
abbrev Volume : Type := ℤ × ℤ × ℤ → ℚ

/-- Modelled from the spec: `helper/preprocessing_3d.py` is not among the
staged sources.  Per the spec an `ImageDataGenerator` holds "a fixed
configuration (rotation range, shift ranges, zoom range, flip flags)";
a constructor argument left out keeps a no-augmentation default. -/
structure ImageDataGenerator where
  rotation_range : ℚ := 0
  width_shift_range : ℚ := 0
  height_shift_range : ℚ := 0
  depth_shift_range : ℚ := 0
  zoom_range : ℚ := 0
  horizontal_flip : Bool := false
  vertical_flip : Bool := false
  depth_flip : Bool := false
deriving Repr, DecidableEq

/-- Lines 23-32: the training generator's augmentation configuration
(`0.125 = 1/8`). -/
def train_datagen : ImageDataGenerator :=
  { rotation_range := 30, width_shift_range := 1 / 8,
    height_shift_range := 1 / 8, depth_shift_range := 1 / 8,
    zoom_range := 1 / 8, horizontal_flip := true, vertical_flip := false,
    depth_flip := false }

/-- Line 33: `val_datagen = ImageDataGenerator()` — every augmentation
parameter left at its default. -/
def val_datagen : ImageDataGenerator := {}

/-- Modelled from the spec: the random draw the generator makes for one
sample — a rotation parameter (tangent half-angle), three integer shift
offsets, a zoom factor and three flip decisions. -/
structure TransformParams where
  rot : ℚ
  wshift : ℤ
  hshift : ℤ
  dshift : ℤ
  zoom : ℚ
  hflip : Bool
  vflip : Bool
  dflip : Bool
deriving Repr, DecidableEq

/-- Modelled from the spec: a draw the generator's fixed configuration
admits — every magnitude is bounded by its configured range, the zoom
factor is positive and within `zoom_range` of 1, and a flip happens only
when its flag is set. -/
def admits (g : ImageDataGenerator) (dims : ℤ × ℤ × ℤ)
    (p : TransformParams) : Prop :=
  |p.rot| ≤ g.rotation_range
  ∧ |(p.wshift : ℚ)| ≤ g.width_shift_range * (dims.1 : ℚ)
  ∧ |(p.hshift : ℚ)| ≤ g.height_shift_range * (dims.2.1 : ℚ)
  ∧ |(p.dshift : ℚ)| ≤ g.depth_shift_range * (dims.2.2 : ℚ)
  ∧ |p.zoom - 1| ≤ g.zoom_range
  ∧ 0 < p.zoom
  ∧ (p.hflip = true → g.horizontal_flip = true)
  ∧ (p.vflip = true → g.vertical_flip = true)
  ∧ (p.dflip = true → g.depth_flip = true)

/-- Rotation of the first two axes by the angle with tangent half-angle
`t`, by resampling at the rotated integer coordinates. -/
def rotate_xy (t : ℚ) (v : Volume) : Volume :=
  let c : ℚ := (1 - t ^ 2) / (1 + t ^ 2)
  let s : ℚ := 2 * t / (1 + t ^ 2)
  fun q => v (⌊c * (q.1 : ℚ) - s * (q.2.1 : ℚ)⌋,
              ⌊s * (q.1 : ℚ) + c * (q.2.1 : ℚ)⌋, q.2.2)

/-- Translation by the drawn shift offsets. -/
def shift_xyz (dx dy dz : ℤ) (v : Volume) : Volume :=
  fun q => v (q.1 - dx, q.2.1 - dy, q.2.2 - dz)

/-- Zoom by factor `z`, by nearest-lower resampling of the scaled
coordinates. -/
def zoom_xyz (z : ℚ) (v : Volume) : Volume :=
  fun q => v (⌊(q.1 : ℚ) / z⌋, ⌊(q.2.1 : ℚ) / z⌋, ⌊(q.2.2 : ℚ) / z⌋)

/-- Flip along the first axis of a volume of width `w`. -/
def flip_x (w : ℤ) (v : Volume) : Volume :=
  fun q => v (w - 1 - q.1, q.2.1, q.2.2)

/-- Flip along the second axis of a volume of height `h`. -/
def flip_y (h : ℤ) (v : Volume) : Volume :=
  fun q => v (q.1, h - 1 - q.2.1, q.2.2)

/-- Flip along the third axis of a volume of depth `d`. -/
def flip_z (d : ℤ) (v : Volume) : Volume :=
  fun q => v (q.1, q.2.1, d - 1 - q.2.2)

/-- Modelled from the spec: applying one admitted draw to a volume — the
"random rotation, shift, zoom, and flip transforms" of the spec, applied
in sequence. -/
def random_transform (dims : ℤ × ℤ × ℤ) (p : TransformParams)
    (v : Volume) : Volume :=
  let v := rotate_xy p.rot v
  let v := shift_xyz p.wshift p.hshift p.dshift v
  let v := zoom_xyz p.zoom v
  let v := if p.hflip then flip_x dims.1 v else v
  let v := if p.vflip then flip_y dims.2.1 v else v
  if p.dflip then flip_z dims.2.2 v else v

end SD01A

namespace SD01A

/-! ### Helper lemmas -/

/-- Zipping mapped volumes with a constant label block labels each volume
with that constant. -/
theorem zip_map_replicate {V : Type} (load : String → V) (b : Bool) :
    ∀ fs : List String,
      (fs.map load).zip (List.replicate fs.length b)
        = fs.map (fun f => (load f, b)) := by
  intro fs
  induction fs with
  | nil => rfl
  | cons f fs ih => simp [List.replicate_succ, ih]

/-- Reading every index of `List.range` back out of a list reproduces
the list. -/
theorem map_getD_range {V : Type} (d : V) :
    ∀ xs : List V, (List.range xs.length).map (fun i => xs.getD i d) = xs := by
  intro xs
  induction xs with
  | nil => rfl
  | cons x xs ih =>
      simp only [List.length_cons, List.range_succ_eq_map, List.map_cons,
        List.getD_cons_zero, List.map_map]
      refine congrArg (x :: ·) ?_
      simpa [Function.comp_def, Nat.succ_eq_add_one, List.getElem?_cons_succ] using ih

/-- Reading every index of `List.range` out of two equal-length lists in a
pair reproduces their zip. -/
theorem map_getD_range_zip {V : Type} (dX : V) :
    ∀ (X : List V) (y : List Bool), y.length = X.length →
      (List.range X.length).map (fun i => (X.getD i dX, y.getD i false))
        = X.zip y := by
  intro X
  induction X with
  | nil =>
      intro y hy
      simp
  | cons x xs ih =>
      intro y hy
      cases y with
      | nil => simp at hy
      | cons b ys =>
          simp only [List.length_cons, List.range_succ_eq_map, List.map_cons,
            List.getD_cons_zero, List.map_map, List.zip_cons_cons]
          refine congrArg ((x, b) :: ·) ?_
          have hys : ys.length = xs.length := by simpa using hy
          simpa [Function.comp_def, Nat.succ_eq_add_one, List.getElem?_cons_succ] using ih ys hys

/-- C6: for every directory tree, `get_data_files` yields exactly the regular
files anywhere under the root whose path ends in `.npy`: it equals the
`.npy`-suffix filter of the full recursive file listing, so every yielded
path is a `.npy` file under the root, every such file is yielded, and
directories and files with other extensions never are. -/
theorem get_data_files_eq_filter (root : String) (es : List DirEntry) :
    get_data_files root es
      = (files_under root es).filter (fun p => p.endsWith ".npy") := by
  induction root, es using get_data_files.induct with
  | case1 root => simp [get_data_files, files_under]
  | case2 root n es ih =>
      by_cases h : (joinPath root n).endsWith ".npy" <;>
        simp [get_data_files, files_under, h, ih]
  | case3 root n sub es ih1 ih2 =>
      simp [get_data_files, files_under, List.filter_append, ih1, ih2]

/-- C1: before shuffling, every volume's label matches its source
subdirectory: each row loaded from a file under the `0` subdirectory is
paired with `false`, each row loaded from a file under the `1` subdirectory
with `true`, in the same order as the rows of `X`; and `y` is exactly
`len(neg_files)` `false` entries followed by `len(pos_files)` `true`
entries. -/
theorem labels_match_source_dir {V : Type} (load : String → V)
    (train_dir : String) (es0 es1 : List DirEntry) :
    (load_volumes load
          (get_data_files (joinPath train_dir "0") es0
            ++ get_data_files (joinPath train_dir "1") es1)).zip
        (y_labels (get_data_files (joinPath train_dir "0") es0).length
          (get_data_files (joinPath train_dir "1") es1).length)
      = (get_data_files (joinPath train_dir "0") es0).map
            (fun f => (load f, false))
          ++ (get_data_files (joinPath train_dir "1") es1).map
            (fun f => (load f, true))
    ∧ (y_labels (get_data_files (joinPath train_dir "0") es0).length
          (get_data_files (joinPath train_dir "1") es1).length).count false
        = (get_data_files (joinPath train_dir "0") es0).length
    ∧ (y_labels (get_data_files (joinPath train_dir "0") es0).length
          (get_data_files (joinPath train_dir "1") es1).length).count true
        = (get_data_files (joinPath train_dir "1") es1).length := by
  set neg := get_data_files (joinPath train_dir "0") es0 with hneg
  set pos := get_data_files (joinPath train_dir "1") es1 with hpos
  refine ⟨?_, ?_, ?_⟩
  · have hlen : (neg.map load).length = (List.replicate neg.length false).length := by
      simp
    calc (load_volumes load (neg ++ pos)).zip (y_labels neg.length pos.length)
        = (neg.map load ++ pos.map load).zip
            (List.replicate neg.length false ++ List.replicate pos.length true) := by
          simp [load_volumes, y_labels]
      _ = (neg.map load).zip (List.replicate neg.length false)
            ++ (pos.map load).zip (List.replicate pos.length true) :=
          List.zip_append (by simp)
      _ = neg.map (fun f => (load f, false)) ++ pos.map (fun f => (load f, true)) := by
          rw [zip_map_replicate, zip_map_replicate]
  · simp [y_labels, List.count_append, List.count_replicate]
  · simp [y_labels, List.count_append, List.count_replicate]

/-- C2: shuffling preserves the volume/label pairing: there is a permutation
`pi` of the indices with shuffled `X[i] = X[pi[i]]` and shuffled
`y[i] = y[pi[i]]` for all `i`; the multiset of `(volume, label)` pairs, and
hence the count of each label, is unchanged. -/
theorem shuffle_preserves_pairing {V : Type} (dX : V) (perm : List Nat)
    (X : List V) (y : List Bool)
    (hperm : perm.Perm (List.range X.length)) (hlen : y.length = X.length) :
    ∃ pi : List Nat, pi.Perm (List.range X.length)
      ∧ (sklearn_shuffle dX perm X y).1 = pi.map (fun i => X.getD i dX)
      ∧ (sklearn_shuffle dX perm X y).2 = pi.map (fun i => y.getD i false)
      ∧ ((sklearn_shuffle dX perm X y).1.zip
          (sklearn_shuffle dX perm X y).2).Perm (X.zip y)
      ∧ ∀ b : Bool, (sklearn_shuffle dX perm X y).2.count b = y.count b := by
  refine ⟨perm, hperm, rfl, rfl, ?_, ?_⟩
  · have hzip : (sklearn_shuffle dX perm X y).1.zip (sklearn_shuffle dX perm X y).2
        = perm.map (fun i => (X.getD i dX, y.getD i false)) := by
      simp [sklearn_shuffle, apply_perm, List.zip_map']
    rw [hzip]
    have h1 : (perm.map (fun i => (X.getD i dX, y.getD i false))).Perm
        ((List.range X.length).map (fun i => (X.getD i dX, y.getD i false))) :=
      hperm.map _
    have h2 := map_getD_range_zip dX X y hlen
    rw [h2] at h1
    exact h1
  · intro b
    have h1 : ((sklearn_shuffle dX perm X y).2).Perm
        ((List.range X.length).map (fun i => y.getD i false)) := by
      simpa [sklearn_shuffle, apply_perm] using hperm.map (fun i => y.getD i false)
    have h2 : (List.range y.length).map (fun i => y.getD i false) = y :=
      map_getD_range false y
    rw [hlen] at h2
    rw [h2] at h1
    exact h1.count_eq b

/-- Witness for C2 at the concrete input `perm = [2, 0, 1]`,
`X = [5, 6, 7]`, `y = [true, false, true]`. -/
theorem shuffle_preserves_pairing_witness :
    ∃ pi : List Nat, pi.Perm (List.range ([5, 6, 7] : List Nat).length)
      ∧ (sklearn_shuffle 0 [2, 0, 1] [5, 6, 7] [true, false, true]).1
          = pi.map (fun i => ([5, 6, 7] : List Nat).getD i 0)
      ∧ (sklearn_shuffle 0 [2, 0, 1] [5, 6, 7] [true, false, true]).2
          = pi.map (fun i => ([true, false, true] : List Bool).getD i false)
      ∧ ((sklearn_shuffle 0 [2, 0, 1] [5, 6, 7] [true, false, true]).1.zip
          (sklearn_shuffle 0 [2, 0, 1] [5, 6, 7] [true, false, true]).2).Perm
          (([5, 6, 7] : List Nat).zip [true, false, true])
      ∧ ∀ b : Bool,
          (sklearn_shuffle 0 [2, 0, 1] [5, 6, 7] [true, false, true]).2.count b
            = ([true, false, true] : List Bool).count b :=
  shuffle_preserves_pairing 0 [2, 0, 1] [5, 6, 7] [true, false, true]
    (by decide) (by decide)

/-- C3: for every input tensor and every positive subsample factor,
`res_block` is batch normalization, ReLU, a strided 3x3x3 convolution, a
second batch normalization, a second ReLU and a second unstrided 3x3x3
convolution, summed elementwise with a shortcut that is the identity at
subsample factor 1 and a strided 1x1x1 projection convolution above 1. -/
theorem res_block_matches_spec (input_tensor : Tensor)
    (nb_filters block subsample_factor : Nat) (h : 1 ≤ subsample_factor) :
    res_block input_tensor nb_filters block subsample_factor
      = res_block_spec input_tensor nb_filters subsample_factor := by
  rcases Nat.lt_or_ge 1 subsample_factor with hgt | hle
  · simp [res_block, res_block_spec, hgt, ne_of_gt hgt]
  · have h1 : subsample_factor = 1 := le_antisymm hle h
    subst h1
    simp [res_block, res_block_spec]

/-- Witness for C3 at the concrete strided block
`res_block x 32 1 2` of line 89. -/
theorem res_block_matches_spec_witness :
    1 ≤ 2 ∧ res_block (Tensor.input [32, 32, 64, 1]) 32 1 2
      = res_block_spec (Tensor.input [32, 32, 64, 1]) 32 2 :=
  ⟨by decide,
    res_block_matches_spec (Tensor.input [32, 32, 64, 1]) 32 1 2 (by decide)⟩

/-- C4 counterexample: at the script's image shape the model decomposes
into the four stages of `stage_plan` with widths 16, 32, 64, 128, but the
first (16-channel) stage's blocks have subsample factors `[1, 1, 1]` —
no strided block at all — so it is false that every stage has exactly one
strided (subsample factor 2) block. -/
theorem first_stage_has_no_strided_block :
    (define_model [32, 32, 64, 1]).graph
        = define_model_spec [32, 32, 64, 1] stage_plan
    ∧ stage_plan.map (fun p => p.1) = [16, 32, 64, 128]
    ∧ (stage_plan.map (fun p => p.2.2)).head? = some [1, 1, 1]
    ∧ ¬ (∀ p ∈ stage_plan, p.2.2.count 2 = 1) :=
  ⟨rfl, by decide, by decide, by decide⟩

/-- C4 (amended): for every image shape, `define_model` is an initial
convolution followed by four stages of residual blocks with strictly
increasing channel widths 16, 32, 64, 128, where each of the last three
stages has exactly one strided (subsample factor 2) block and the first
stage has none, followed by normalization, pooling, flattening and a
single sigmoid output unit. -/
theorem define_model_structure (image_shape : List Nat) :
    (define_model image_shape).graph = define_model_spec image_shape stage_plan
    ∧ stage_plan.map (fun p => p.1) = [16, 32, 64, 128]
    ∧ List.Pairwise (· < ·) (stage_plan.map (fun p => p.1))
    ∧ stage_plan.map (fun p => p.2.2.count 2) = [0, 1, 1, 1]
    ∧ output_dense (define_model image_shape).graph = some (1, "sigmoid") :=
  ⟨rfl, by decide, by decide, by decide, rfl⟩

/-- C5: the entry point cannot read its configuration: evaluating
`SETTINGS = json.load(f)` at line 132 resolves the global name `json`,
which neither the imports of lines 1-11 nor the builtins bind, so the
settings-reading prelude raises `NameError` instead of loading the
settings file. -/
theorem read_settings_raises_name_error :
    read_settings_step = Except.error "NameError: name json is not defined"
    ∧ "json" ∉ module_names ∧ "json" ∉ python_builtins :=
  ⟨rfl, by decide, by decide⟩

/-- C7: the training driver delegates to the framework's generator-based
fit loop with exactly two callbacks: a checkpointer that saves only on
improvement of the monitored validation loss, and early stopping on the
validation loss with patience 10. -/
theorem train_installs_two_callbacks (weights_filepath : String)
    (config : Nat × Nat × Nat × Nat) :
    (train weights_filepath config).callbacks
        = [Callback.model_checkpoint weights_filepath "val_loss" 2 true,
          Callback.early_stopping "val_loss" 10 2]
    ∧ (train weights_filepath config).callbacks.length = 2 :=
  ⟨rfl, rfl⟩

/-- C8: the model's output layer is a single dense unit with sigmoid
activation, and the sigmoid function's value at every real input lies in
the closed interval `[0, 1]`. -/
theorem model_output_in_unit_interval (image_shape : List Nat) :
    output_dense (define_model image_shape).graph = some (1, "sigmoid")
    ∧ ∀ x : ℝ, sigmoid x ∈ Set.Icc (0 : ℝ) 1 := by
  refine ⟨rfl, fun x => ?_⟩
  have hpos : 0 < 1 + Real.exp (-x) := by positivity
  rw [Set.mem_Icc, sigmoid]
  constructor
  · positivity
  · rw [div_le_one hpos]
    linarith [Real.exp_pos (-x)]

/-- C9: `samples_per_epoch` and `nb_val_samples` are
`batch_size * (n // batch_size)` with `n` the number of `.npy` files
yielded under the split directory: each is divisible by the batch size, is
the largest multiple of the batch size not exceeding `n`, and is 0
whenever `n` is below the batch size. -/
theorem samples_per_epoch_props (batch_size : Nat) (dir : String)
    (es : List DirEntry) :
    batch_size ∣ samples_per_epoch_calc batch_size (get_data_files dir es).length
    ∧ samples_per_epoch_calc batch_size (get_data_files dir es).length
        ≤ (get_data_files dir es).length
    ∧ (∀ m, batch_size ∣ m → m ≤ (get_data_files dir es).length →
        m ≤ samples_per_epoch_calc batch_size (get_data_files dir es).length)
    ∧ ((get_data_files dir es).length < batch_size →
        samples_per_epoch_calc batch_size (get_data_files dir es).length = 0) := by
  set n := (get_data_files dir es).length with hn
  refine ⟨⟨n / batch_size, rfl⟩, ?_, ?_, ?_⟩
  · show batch_size * (n / batch_size) ≤ n
    rw [Nat.mul_comm]
    exact Nat.div_mul_le_self n batch_size
  · rintro m ⟨k, rfl⟩ hm
    rcases Nat.eq_zero_or_pos batch_size with hb | hb
    · subst hb
      simp
    · have hk : k ≤ n / batch_size :=
        (Nat.le_div_iff_mul_le hb).mpr (by rw [Nat.mul_comm]; exact hm)
      exact Nat.mul_le_mul_left batch_size hk
  · intro hlt
    show batch_size * (n / batch_size) = 0
    rw [Nat.div_eq_of_lt hlt, Nat.mul_zero]

/-- C10: the validation generator is built with an `ImageDataGenerator`
taking no augmentation parameters, so every draw its configuration admits
is forced to the identity: no rotation, shift, zoom or flip is applied,
and every validation volume is yielded unmodified. -/
theorem val_generator_yields_unmodified (dims : ℤ × ℤ × ℤ)
    (p : TransformParams) (v : Volume)
    (hp : admits val_datagen dims p) :
    random_transform dims p v = v := by
  obtain ⟨h1, h2, h3, h4, h5, h6, h7, h8, h9⟩ := hp
  have hrot : p.rot = 0 := by
    have h : |p.rot| ≤ 0 := by simpa [val_datagen] using h1
    exact abs_nonpos_iff.mp h
  have hw : p.wshift = 0 := by
    have h : |(p.wshift : ℚ)| ≤ 0 := by simpa [val_datagen] using h2
    exact_mod_cast abs_nonpos_iff.mp h
  have hh : p.hshift = 0 := by
    have h : |(p.hshift : ℚ)| ≤ 0 := by simpa [val_datagen] using h3
    exact_mod_cast abs_nonpos_iff.mp h
  have hd : p.dshift = 0 := by
    have h : |(p.dshift : ℚ)| ≤ 0 := by simpa [val_datagen] using h4
    exact_mod_cast abs_nonpos_iff.mp h
  have hz : p.zoom = 1 := by
    have h : |p.zoom - 1| ≤ 0 := by simpa [val_datagen] using h5
    have h0 := abs_nonpos_iff.mp h
    linarith
  have hhf : p.hflip = false := by
    cases hb : p.hflip
    · rfl
    · have := h7 hb
      simp [val_datagen] at this
  have hvf : p.vflip = false := by
    cases hb : p.vflip
    · rfl
    · have := h8 hb
      simp [val_datagen] at this
  have hdf : p.dflip = false := by
    cases hb : p.dflip
    · rfl
    · have := h9 hb
      simp [val_datagen] at this
  funext q
  simp only [random_transform, hrot, hw, hh, hd, hz, hhf, hvf, hdf,
    Bool.false_eq_true, if_false, rotate_xy, shift_xyz, zoom_xyz]
  norm_num [Int.floor_intCast]

/-- Witness for C10 at the only draw the validation configuration admits
(no rotation, zero shifts, unit zoom, no flips) on the zero volume. -/
theorem val_generator_yields_unmodified_witness :
    admits val_datagen (32, 32, 64) ⟨0, 0, 0, 0, 1, false, false, false⟩
    ∧ random_transform (32, 32, 64) ⟨0, 0, 0, 0, 1, false, false, false⟩
        (fun _ => (0 : ℚ))
      = fun _ => (0 : ℚ) :=
  have h : admits val_datagen (32, 32, 64)
      ⟨0, 0, 0, 0, 1, false, false, false⟩ := by
    norm_num [admits, val_datagen]
  ⟨h, val_generator_yields_unmodified (32, 32, 64)
    ⟨0, 0, 0, 0, 1, false, false, false⟩ (fun _ => (0 : ℚ)) h⟩

end SD01A
